import Mathlib

/-!
Shallow embedding of the Go package `date` (files `date.go` and `range.go`):
a calendar-day value type `Date` and an interval algebra `Range` over it.

A Go `Date` wraps a `time.Time` normalized to midnight UTC; every date this
package constructs lies on a whole-day boundary, so a `Date` is modelled by
its whole-day count since Go's zero time instant (midnight UTC, January 1 of
year 1, proleptic Gregorian).  Day number 0 is therefore exactly the zero
`time.Time`, the sentinel the package uses for "unset" bounds.
`Before` / `After` on `time.Time` restricted to midnights is integer
comparison of day numbers, `AddDays` (via `AddDate 0 0 n`) is addition of
`n`, and struct equality of two such `Date`s is equality of day numbers.
-/

namespace GoDate

/-- Date models Go `type Date struct{ time.Time }` restricted to the
whole-day instants the package constructs: `day` is the count of days since
the zero time (0001-01-01 UTC). -/
structure Date where
  day : Int
deriving DecidableEq, Repr

/-- Date.IsZero: the embedded `time.Time` equals the zero instant
(Go `time.Time.IsZero`). -/
def Date.IsZero (d : Date) : Bool := d.day == 0

/-- Date.Before: Go `date.Time.Before(other.Time)` (strict). -/
def Date.Before (d other : Date) : Bool := d.day < other.day

/-- Date.After: Go `date.Time.After(other.Time)` (strict). -/
def Date.After (d other : Date) : Bool := other.day < d.day

/-- Date.Equals: Go `date.Time.Equal(other.Time)`; on whole-day instants in
the same zone this is equality of day numbers. -/
def Date.Equals (d other : Date) : Bool := d.day == other.day

/-- Date.AddDays: Go `AddDate(0, 0, days)`, i.e. a calendar-correct offset
of whole days, which on the day-number line is addition. -/
def Date.AddDays (d : Date) (days : Int) : Date := ⟨d.day + days⟩

/-- Leap-year test, as Go `time.isLeap` (divisibility is unaffected by the
truncated-vs-euclidean remainder difference). -/
def isLeap (y : Int) : Bool := y % 4 == 0 && (y % 100 != 0 || y % 400 == 0)

/-- Day count since 0001-01-01 of the proleptic-Gregorian civil date
(y, m, d), for m in 1..12 and an arbitrary day offset d (day 0 is the last
day of the previous month, as in Go's normalizing `time.Date`).  This is the
standard era-based civil-calendar conversion; it agrees with Go's internal
`time.Date`/`absDate` pair on all inputs the package produces. -/
def daysFromCivil (y m d : Int) : Int :=
  let y' := if m ≤ 2 then y - 1 else y
  let era := y'.ediv 400
  let yoe := y' - era * 400
  let mp := (m + 9).emod 12
  let doy := (153 * mp + 2).ediv 5 + d - 1
  let doe := yoe * 365 + yoe.ediv 4 - yoe.ediv 100 + doy
  era * 146097 + doe - 306

/-- Inverse of daysFromCivil: the (year, month, day) civil triple of a day
number (used only for rendering, as Go's `absDate`). -/
def civilFromDays (dn : Int) : Int × Int × Int :=
  let z := dn + 306
  let era := z.ediv 146097
  let doe := z - era * 146097
  let yoe := (doe - doe.ediv 1460 + doe.ediv 36524 - doe.ediv 146096).ediv 365
  let y := yoe + era * 400
  let doy := doe - (365 * yoe + yoe.ediv 4 - yoe.ediv 100)
  let mp := (5 * doy + 2).ediv 153
  let dd := doy - (153 * mp + 2).ediv 5 + 1
  let m := if mp < 10 then mp + 3 else mp - 9
  (if m ≤ 2 then y + 1 else y, m, dd)

/-- New: Go `date.New(year, month, day)` = `time.Date(year, month, day, 0,
0, 0, 0, time.UTC)` wrapped as a Date.  `time.Date` first normalizes the
month into 1..12 (rolling the year, euclidean-style as Go's `norm`), then
adds the (possibly out-of-range) day offset. -/
def New (year month d : Int) : Date :=
  let m0 := month - 1
  ⟨daysFromCivil (year + m0.ediv 12) (m0.emod 12 + 1) d⟩

/-- Range models Go
`type Range struct { Start Date; End Date; isEmpty bool }`. -/
structure Range where
  Start : Date
  End : Date
  isEmpty : Bool
deriving DecidableEq, Repr

/-- Range.IsZero: both bounds are the zero Date. -/
def Range.IsZero (term : Range) : Bool := term.Start.IsZero && term.End.IsZero

/-- Range.IsEmpty: the isEmpty flag is set and the bounds are zero. -/
def Range.IsEmpty (term : Range) : Bool := term.isEmpty && term.IsZero

/-- Range.IsInfinity is an alias for Range.IsZero. -/
def Range.IsInfinity (term : Range) : Bool := term.IsZero

/-- Range.Equals: Go `term == other`, struct equality of all three fields
(on whole-day Dates, equality of day numbers). -/
def Range.Equals (term other : Range) : Bool := term == other

/-- Range.Error: Go returns an error value exactly when both bounds are
non-zero and Start is strictly after End; modelled as `Option String`
(`none` = Go `nil`). -/
def Range.Error (term : Range) : Option String :=
  if term.Start.IsZero || term.End.IsZero then none
  else if term.Start.After term.End then
    some "Start date cannot be after the end date"
  else none

/-- Range.Days: Go computes `int(End.Sub(Start).Hours()/24) + 1`.  On
whole-day UTC dates the subtraction is an exact whole number of days as
long as it fits in a Duration, but `time.Time.Sub` saturates at
maxDuration = 2^63 - 1 ns (about 106751.99 days) and minDuration = -2^63
ns: a difference of 106752 days or more yields maxDuration, whose
`Hours()/24` is 106751.991... and truncates to 106751, so Days() returns
106752; a difference of -106752 days or less yields minDuration, whose
`Hours()/24` is -106751.991... and truncates toward zero to -106751, so
Days() returns -106750.  Below the saturation bound the float arithmetic
is exact (day counts times 24 are far below 2^53), so the result is the
day-number difference plus one. -/
def Range.Days (term : Range) : Int :=
  if term.Start.IsZero || term.End.IsZero then 0
  else
    let delta := term.End.day - term.Start.day
    if 106752 ≤ delta then 106752
    else if delta ≤ -106752 then -106750
    else delta + 1

/-- Date.Within: true if the Date is within the Range - inclusive
(from date.go; empty terms contain nothing, zero bounds impose no
constraint on their side). -/
def Date.Within (date : Date) (term : Range) : Bool :=
  if term.IsEmpty then false
  else if !term.Start.IsZero && date.Before term.Start then false
  else if !term.End.IsZero && date.After term.End then false
  else true

/-- Empty: Go `Empty()`, the empty Range (isEmpty flag set, zero bounds). -/
def Empty : Range := ⟨⟨0⟩, ⟨0⟩, true⟩

/-- Forever: Go `Forever()`, a Range without start or end date (the zero
value of the struct: zero bounds, flag unset). -/
def Forever : Range := ⟨⟨0⟩, ⟨0⟩, false⟩

/-- Infinity is an alias for Forever. -/
def Infinity : Range := Forever

/-- Never is an alias for Empty. -/
def Never : Range := Empty

/-- NewRange: Go `NewRange(start, end)`; the named return value starts as
the zero struct, so the isEmpty flag is false. -/
def NewRange (start end_ : Date) : Range := ⟨start, end_, false⟩

/-- SingleDay: Go `SingleDay(date) = NewRange(date, date)`. -/
def SingleDay (date : Date) : Range := NewRange date date

/-- StartBoundedRange: Go `StartBoundedRange(start)`: only the Start field
of the zero struct is set. -/
def StartBoundedRange (start : Date) : Range := ⟨start, ⟨0⟩, false⟩

/-- EntireMonth: Go sets End to `FromTime(first.AddDate(0, 1, -1))` (day 0
of the next month) and Start to the first of the month. -/
def EntireMonth (year month : Int) : Range :=
  ⟨New year month 1, New year (month + 1) 0, false⟩

/-- EntireYear: Go sets End to `FromTime(first.AddDate(1, 0, -1))` (day 0
of January of the next year) and Start to January 1. -/
def EntireYear (year : Int) : Range :=
  ⟨New year 1 1, New (year + 1) 1 0, false⟩

/-- Continuation of Go's `Intersection` after the start bound has been
resolved to `st`: the three `if`/`else if` arms that fill in
`intersect.End` (the named return value left the End at the zero Date in
the both-unbounded arm), with the final `else` returning `Empty()`. -/
def intersectionEnd (term other : Range) (st : Date) : Range :=
  if other.End.Within term then ⟨st, other.End, false⟩
  else if term.End.Within other then ⟨st, term.End, false⟩
  else if term.End.IsZero && other.End.IsZero then ⟨st, ⟨0⟩, false⟩
  else Empty

/-- Range.Intersection, translated arm for arm from range.go: empty operand
check, then the start-bound arms (the named return value leaves Start at
the zero Date in the both-unbounded arm; the final `else` returns
`Empty()`), then the end-bound arms via intersectionEnd. -/
def Range.Intersection (term other : Range) : Range :=
  if term.IsEmpty || other.IsEmpty then Empty
  else if other.Start.Within term then intersectionEnd term other other.Start
  else if term.Start.Within other then intersectionEnd term other term.Start
  else if term.Start.IsZero && other.Start.IsZero then
    intersectionEnd term other ⟨0⟩
  else Empty

/-- The start bound of Go's `Union`: the zero Date when either non-empty
operand is unbounded on the left (the named return value is left at its
zero Date), otherwise the earlier of the two starts. -/
def unionStart (term other : Range) : Date :=
  if !term.IsEmpty && term.Start.IsZero then ⟨0⟩
  else if !other.IsEmpty && other.Start.IsZero then ⟨0⟩
  else if term.Start.Before other.Start then term.Start
  else other.Start

/-- The end bound of Go's `Union`: symmetric to unionStart with
Before replaced by After. -/
def unionEnd (term other : Range) : Date :=
  if !term.IsEmpty && term.End.IsZero then ⟨0⟩
  else if !other.IsEmpty && other.End.IsZero then ⟨0⟩
  else if term.End.After other.End then term.End
  else other.End

/-- Range.Union from range.go: Empty when both operands are empty,
otherwise the struct whose bounds are the two independent bound
computations (the named return value's isEmpty flag stays false). -/
def Range.Union (term other : Range) : Range :=
  if term.IsEmpty && other.IsEmpty then Empty
  else ⟨unionStart term other, unionEnd term other, false⟩

/-- Range.Contains: intersecting term with other yields exactly other. -/
def Range.Contains (term other : Range) : Bool :=
  (term.Intersection other).Equals other

/-- Range.DoesNotContain: negation of Contains. -/
def Range.DoesNotContain (term other : Range) : Bool := !term.Contains other

/-- Range.Overlaps: the intersection is not empty. -/
def Range.Overlaps (term other : Range) : Bool :=
  !(term.Intersection other).IsEmpty

end GoDate

namespace GoDate

/-- Characterization of Date.IsZero on the day-number model. -/
theorem Date.isZero_iff {d : Date} : d.IsZero = true ↔ d.day = 0 := by
  simp [Date.IsZero]

/-- Characterization of Range.IsEmpty: flag set and both bounds zero. -/
theorem Range.isEmpty_iff {t : Range} :
    t.IsEmpty = true ↔ t.isEmpty = true ∧ t.Start.day = 0 ∧ t.End.day = 0 := by
  simp [Range.IsEmpty, Range.IsZero, Date.IsZero, and_assoc]

/-- Characterization of Date.Within as a proposition on day numbers. -/
theorem Date.within_iff {d : Date} {t : Range} :
    d.Within t = true ↔
      t.IsEmpty = false ∧ (t.Start.day = 0 ∨ t.Start.day ≤ d.day) ∧
        (t.End.day = 0 ∨ d.day ≤ t.End.day) := by
  unfold Date.Within
  split_ifs with h1 h2 h3 <;>
    simp_all [Date.IsZero, Date.Before, Date.After] <;> omega

/-- Characterization of a nil result of Range.Error. -/
theorem Range.error_none_iff {t : Range} :
    t.Error = none ↔
      t.Start.day = 0 ∨ t.End.day = 0 ∨ t.Start.day ≤ t.End.day := by
  unfold Range.Error
  split_ifs with h1 h2 <;>
    simp_all [Date.IsZero, Date.After] <;> omega

end GoDate
namespace GoDate

/-- C1: the spec claims `Empty().Union(r) == r` for every Range r,
including bounded r with non-zero Start and End.  The code violates this:
when the other operand is bounded, the empty operand's zero-Date Start wins
the `Before` comparison, so `Empty().Union(EntireMonth(2015, 3))` is the
left-unbounded range `(-inf, 2015-03-31]`, not March 2015. -/
theorem c1_empty_union_of_bounded_drops_start :
    Empty.Union (EntireMonth 2015 3) = ⟨⟨0⟩, New 2015 3 31, false⟩ ∧
      Empty.Union (EntireMonth 2015 3) ≠ EntireMonth 2015 3 := by
  decide

/-- C2: the spec claims Intersection is commutative, including with one
operand unbounded on one side and the other bounded on that side.  The code
violates exactly that case: for a = [2015-03-01, +inf) and
b = (-inf, 2015-03-10], a.Intersection(b) is the bounded range
[2015-03-01, 2015-03-10] but b.Intersection(a) is [2015-03-01, +inf),
because a's zero-Date End passes b's `Within` check. -/
theorem c2_intersection_not_commutative :
    (StartBoundedRange (New 2015 3 1)).Intersection
        (NewRange ⟨0⟩ (New 2015 3 10)) =
      NewRange (New 2015 3 1) (New 2015 3 10) ∧
    (NewRange ⟨0⟩ (New 2015 3 10)).Intersection
        (StartBoundedRange (New 2015 3 1)) =
      StartBoundedRange (New 2015 3 1) ∧
    (StartBoundedRange (New 2015 3 1)).Intersection
        (NewRange ⟨0⟩ (New 2015 3 10)) ≠
      (NewRange ⟨0⟩ (New 2015 3 10)).Intersection
        (StartBoundedRange (New 2015 3 1)) := by
  decide

/-- C5 counterexample: Days() is not (End - Start) + 1 for every bounded
range.  The bounded range [1000-01-01, 2000-01-01] spans 365242 days, past
the saturation bound of Go's Duration, so Days() returns the capped value
106752 instead of 365243. -/
theorem c5_days_saturates_on_wide_range :
    (NewRange (New 1000 1 1) (New 2000 1 1)).Days = 106752 ∧
      ((New 2000 1 1).day - (New 1000 1 1).day) + 1 = 365243 ∧
      (NewRange (New 1000 1 1) (New 2000 1 1)).Days ≠
        ((New 2000 1 1).day - (New 1000 1 1).day) + 1 := by
  decide

/-- C5 amended: Days() is 0 for the empty range and for every range with a
zero (unbounded) Start or End; for a bounded range whose day-number
difference End - Start lies strictly between -106752 and 106752 (within
the saturation bound of Go's Duration) it is the inclusive day count
(End - Start) + 1, and outside that bound it saturates to 106752 (wide
ascending ranges) or -106750 (wide inverted ranges); in particular
EntireMonth(2016,2).Days() = 29 and EntireMonth(2015,2).Days() = 28. -/
theorem c5_days_spec_amended :
    (∀ r : Range, r.Start.day = 0 ∨ r.End.day = 0 → r.Days = 0) ∧
      (∀ r : Range, r.Start.day ≠ 0 → r.End.day ≠ 0 →
        r.End.day - r.Start.day < 106752 → -106752 < r.End.day - r.Start.day →
        r.Days = r.End.day - r.Start.day + 1) ∧
      (∀ r : Range, r.Start.day ≠ 0 → r.End.day ≠ 0 →
        106752 ≤ r.End.day - r.Start.day → r.Days = 106752) ∧
      (∀ r : Range, r.Start.day ≠ 0 → r.End.day ≠ 0 →
        r.End.day - r.Start.day ≤ -106752 → r.Days = -106750) ∧
      Empty.Days = 0 ∧
      (EntireMonth 2016 2).Days = 29 ∧ (EntireMonth 2015 2).Days = 28 := by
  refine ⟨fun r h => ?_, fun r h1 h2 h3 h4 => ?_, fun r h1 h2 h3 => ?_,
    fun r h1 h2 h3 => ?_, by decide, by decide, by decide⟩ <;>
    (unfold Range.Days; split_ifs <;> simp_all [Date.IsZero] <;> omega)

/-- Witness for C5 amended: the non-saturating bounded clause applied to
the concrete year 2015, whose 365-day width is far below the bound. -/
theorem c5_days_spec_amended_witness :
    ((EntireYear 2015).Start.day ≠ 0 ∧ (EntireYear 2015).End.day ≠ 0 ∧
        (EntireYear 2015).End.day - (EntireYear 2015).Start.day < 106752 ∧
        -106752 < (EntireYear 2015).End.day - (EntireYear 2015).Start.day) ∧
      (EntireYear 2015).Days =
        (EntireYear 2015).End.day - (EntireYear 2015).Start.day + 1 :=
  ⟨⟨by decide, by decide, by decide, by decide⟩,
    c5_days_spec_amended.2.1 (EntireYear 2015)
      (by decide) (by decide) (by decide) (by decide)⟩

/-- C6: Range.Error returns a non-nil error exactly when both bounds are
non-zero and Start is strictly after End; it returns nil for every empty,
fully unbounded, or semi-unbounded range and for every bounded range with
Start not after End. -/
theorem c6_error_iff_inverted_bounds (r : Range) :
    r.Error ≠ none ↔
      r.Start.day ≠ 0 ∧ r.End.day ≠ 0 ∧ r.End.day < r.Start.day := by
  rw [Ne, Range.error_none_iff]
  omega

/-- C10: for the zero Date d, SingleDay(d) is structurally equal to
Forever() and reports IsInfinity() true, since NewRange stores both zero
bounds with the empty flag false. -/
theorem c10_singleday_of_zero_is_forever (d : Date) (h : d.IsZero = true) :
    SingleDay d = Forever ∧ (SingleDay d).IsInfinity = true := by
  rw [Date.isZero_iff] at h
  obtain ⟨x⟩ := d
  simp only at h
  subst h
  exact ⟨rfl, rfl⟩

/-- Witness for C10 at the concrete zero Date. -/
theorem c10_singleday_of_zero_is_forever_witness :
    (⟨0⟩ : Date).IsZero = true ∧
      (SingleDay ⟨0⟩ = Forever ∧ (SingleDay ⟨0⟩).IsInfinity = true) :=
  ⟨by decide, c10_singleday_of_zero_is_forever ⟨0⟩ (by decide)⟩

end GoDate
namespace GoDate

/-- C7 counterexample: containment is not reflexive for every Range.  The
publicly constructible inverted range [2015-03-05, 2015-03-01] does not
contain itself: its self-intersection is Empty(), which is not structurally
equal to it. -/
theorem c7_contains_not_reflexive_on_inverted_range :
    (NewRange (New 2015 3 5) (New 2015 3 1)).Contains
      (NewRange (New 2015 3 5) (New 2015 3 1)) = false := by
  decide

/-- Helper for C7: self-intersection of a non-empty-flagged range whose
bounds are in order (or unbounded) reproduces the range. -/
lemma intersection_self_of_ordered (s e : Int)
    (h : s = 0 ∨ e = 0 ∨ s ≤ e) :
    (Range.mk ⟨s⟩ ⟨e⟩ false).Intersection (Range.mk ⟨s⟩ ⟨e⟩ false) =
      Range.mk ⟨s⟩ ⟨e⟩ false := by
  unfold Range.Intersection intersectionEnd
  split_ifs <;>
    simp_all [Date.within_iff, Range.IsEmpty, Range.IsZero, Date.IsZero,
      Empty] <;>
    omega

/-- C7 amended: r.Contains(r) holds for every Range r whose isEmpty flag is
only set together with zero bounds and whose Error() is nil, i.e. for every
well-formed empty, bounded, semi-unbounded, or fully unbounded range.  (The
unamended claim fails on inverted bounded ranges and on ranges whose
isEmpty flag is set alongside non-zero bounds.) -/
theorem c7_contains_reflexive_wellformed (r : Range)
    (hflag : r.isEmpty = true → r.IsZero = true)
    (herr : r.Error = none) :
    r.Contains r = true := by
  rw [Range.error_none_iff] at herr
  obtain ⟨⟨s⟩, ⟨e⟩, emp⟩ := r
  dsimp only at herr
  simp only [Range.IsZero, Date.IsZero, Bool.and_eq_true, beq_iff_eq] at hflag
  cases emp with
  | true =>
    obtain ⟨hs, he⟩ := hflag rfl
    subst hs he
    decide
  | false =>
    simp only [Range.Contains, Range.Equals, beq_iff_eq]
    exact intersection_self_of_ordered s e (by omega)

/-- Witness for C7 amended at the concrete bounded range March 2015. -/
theorem c7_contains_reflexive_wellformed_witness :
    ((EntireMonth 2015 3).isEmpty = true →
        (EntireMonth 2015 3).IsZero = true) ∧
      (EntireMonth 2015 3).Error = none ∧
      (EntireMonth 2015 3).Contains (EntireMonth 2015 3) = true :=
  ⟨by decide, by decide,
    c7_contains_reflexive_wellformed (EntireMonth 2015 3)
      (by decide) (by decide)⟩

end GoDate
namespace GoDate

/-- Helper for C9: Union never produces a range with both bounds non-zero
and Start after End when both operands pass Error(). -/
lemma union_preserves_order (a b : Range)
    (ha : a.Error = none) (hb : b.Error = none) :
    (a.Union b).Error = none := by
  rw [Range.error_none_iff] at ha hb
  obtain ⟨⟨as'⟩, ⟨ae⟩, aemp⟩ := a
  obtain ⟨⟨bs⟩, ⟨be⟩, bemp⟩ := b
  dsimp only at ha hb
  unfold Range.Union unionStart unionEnd
  split_ifs <;>
    simp_all [Range.error_none_iff, Range.IsEmpty, Range.IsZero,
      Date.IsZero, Date.Before, Date.After, Empty] <;>
    omega

/-- Helper for C9: Intersection never produces a range with both bounds
non-zero and Start after End when both operands pass Error(). -/
lemma intersection_preserves_order (a b : Range)
    (ha : a.Error = none) (hb : b.Error = none) :
    (a.Intersection b).Error = none := by
  rw [Range.error_none_iff] at ha hb
  obtain ⟨⟨as'⟩, ⟨ae⟩, aemp⟩ := a
  obtain ⟨⟨bs⟩, ⟨be⟩, bemp⟩ := b
  dsimp only at ha hb
  unfold Range.Intersection intersectionEnd
  split_ifs <;>
    simp_all [Range.error_none_iff, Date.within_iff, Range.IsEmpty,
      Range.IsZero, Date.IsZero, Date.Before, Date.After, Empty] <;>
    omega

/-- C9: order-validity is preserved by the algebra: whenever a.Error() and
b.Error() are both nil, a.Union(b).Error() and a.Intersection(b).Error()
are both nil. -/
theorem c9_union_intersection_preserve_validity (a b : Range)
    (ha : a.Error = none) (hb : b.Error = none) :
    (a.Union b).Error = none ∧ (a.Intersection b).Error = none :=
  ⟨union_preserves_order a b ha hb, intersection_preserves_order a b ha hb⟩

/-- Witness for C9 at two concrete valid ranges (March and May 2015, whose
union bridges the gap and whose intersection is empty). -/
theorem c9_union_intersection_preserve_validity_witness :
    (EntireMonth 2015 3).Error = none ∧ (EntireMonth 2015 5).Error = none ∧
      (((EntireMonth 2015 3).Union (EntireMonth 2015 5)).Error = none ∧
        ((EntireMonth 2015 3).Intersection (EntireMonth 2015 5)).Error =
          none) :=
  ⟨by decide, by decide,
    c9_union_intersection_preserve_validity (EntireMonth 2015 3)
      (EntireMonth 2015 5) (by decide) (by decide)⟩

end GoDate
namespace GoDate

/-! Go strings and byte slices in this package are ASCII; they are modelled
as lists of characters, with structurally recursive helpers in place of the
Go standard-library string routines they mirror. -/

/-- Models strings.ToLower on the ASCII inputs this package handles. -/
def toLowerL (s : List Char) : List Char := s.map Char.toLower

/-- Models `strings.SplitN(value, ",", 2)`: `some (before, after)` at the
first comma, `none` when the split yields a single piece (no comma). -/
def splitFirstComma : List Char → Option (List Char × List Char)
  | [] => none
  | c :: rest =>
    if c = ',' then some ([], rest)
    else
      match splitFirstComma rest with
      | none => none
      | some (l, r) => some (c :: l, r)

/-- isEmptyRange from range.go: the value is the token "empty",
case-insensitively. -/
def isEmptyRange (value : List Char) : Bool := toLowerL value == "empty".toList

/-- splitRange from range.go: split at the first comma, reject a missing
comma or an empty piece, then strip the leading byte of the first piece and
the trailing byte of the second and lowercase both. -/
def splitRange (value : List Char) : Option (List Char × List Char) :=
  match splitFirstComma value with
  | none => none
  | some (p0, p1) =>
    if p0.isEmpty || p1.isEmpty then none
    else some (toLowerL (p0.drop 1), toLowerL p1.dropLast)

/-- Days in a month, as Go `time.daysIn` (via the daysBefore table). -/
def daysIn (m y : Int) : Int :=
  if m = 2 then (if isLeap y then 29 else 28)
  else if m = 4 ∨ m = 6 ∨ m = 9 ∨ m = 11 then 30
  else 31

/-- Numeric value of an ASCII digit. -/
def digitVal (c : Char) : Int := (c.toNat : Int) - 48

/-- Models Go `time.Parse("2006-01-02", s)` (the package's Parse): exactly
four year digits, dash, two month digits, dash, two day digits, with the
month required in 1..12 and the day in 1..daysIn(month, year); the parsed
instant is midnight UTC of that civil date. -/
def parseDate (s : List Char) : Option Date :=
  match s with
  | [y1, y2, y3, y4, s1, m1, m2, s2, d1, d2] =>
    if y1.isDigit && y2.isDigit && y3.isDigit && y4.isDigit &&
        (s1 == '-') && m1.isDigit && m2.isDigit && (s2 == '-') &&
        d1.isDigit && d2.isDigit then
      let y := 1000 * digitVal y1 + 100 * digitVal y2 + 10 * digitVal y3 +
        digitVal y4
      let m := 10 * digitVal m1 + digitVal m2
      let d := 10 * digitVal d1 + digitVal d2
      if 1 ≤ m ∧ m ≤ 12 ∧ 1 ≤ d ∧ d ≤ daysIn m y then
        some ⟨daysFromCivil y m d⟩
      else none
    else none
  | _ => none

/-- The `driver.Value` argument of Range.Scan: SQL NULL, a byte slice, or
any other value (which Go's type assertion rejects). -/
inductive SqlValue where
  | null
  | bytes (b : List Char)
  | nonBytes

/-- Range.Scan from range.go, on the final state of the receiver: NULL sets
the isEmpty flag; the token "empty" sets the isEmpty flag; otherwise the
value is split into start and end strings, each side that is neither
"infinity" nor empty is parsed as a date, and one day is subtracted from
the parsed end date (exclusive on the wire, inclusive in memory).  `none`
models a returned error. -/
def Range.Scan (term : Range) (value : SqlValue) : Option Range :=
  match value with
  | .null => some { term with isEmpty := true }
  | .nonBytes => none
  | .bytes b =>
    if isEmptyRange b then some { term with isEmpty := true }
    else
      match splitRange b with
      | none => none
      | some (startStr, endStr) =>
        match
          (if startStr == "infinity".toList || startStr == [] then some term
           else
             match parseDate startStr with
             | none => none
             | some startDate => some { term with Start := startDate }) with
        | none => none
        | some t1 =>
          if endStr == "infinity".toList || endStr == [] then some t1
          else
            match parseDate endStr with
            | none => none
            | some endDate => some { t1 with End := endDate.AddDays (-1) }

/-- An ASCII single-quote character (avoids a quote escape in a literal). -/
def singleQuote : Char := Char.ofNat 39

/-- A string wrapped in single quotes, as Go renders range bounds. -/
def quoted (s : List Char) : List Char := singleQuote :: s ++ [singleQuote]

/-- A number zero-padded to two digits, as Go's "01"/"02" layout fields. -/
def pad2 (n : Int) : List Char :=
  if n < 10 then '0' :: Nat.toDigits 10 n.toNat
  else Nat.toDigits 10 n.toNat

/-- Magnitude of a year zero-padded to four digits. -/
def pad4mag (n : Int) : List Char :=
  if n < 10 then '0' :: '0' :: '0' :: Nat.toDigits 10 n.toNat
  else if n < 100 then '0' :: '0' :: Nat.toDigits 10 n.toNat
  else if n < 1000 then '0' :: Nat.toDigits 10 n.toNat
  else Nat.toDigits 10 n.toNat

/-- A year formatted as Go's "2006" layout field (sign, then four
zero-padded digits). -/
def pad4 (n : Int) : List Char :=
  if n < 0 then '-' :: pad4mag (-n) else pad4mag n

/-- Date.format / Date.String from date.go: the date rendered with the
ISO8601Date layout "2006-01-02". -/
def Date.format (date : Date) : List Char :=
  match civilFromDays date.day with
  | (y, m, d) => pad4 y ++ '-' :: pad2 m ++ '-' :: pad2 d

/-- Range.Value from range.go: the Postgres-style range literal prepared
for the database.  Note the code tests IsZero only (never IsEmpty), and has
no branch producing the token "empty". -/
def Range.Value (term : Range) : List Char :=
  if term.IsZero then "[,]".toList
  else if term.Start.IsZero then
    '[' :: ',' :: quoted term.End.format ++ [']']
  else if term.End.IsZero then
    '[' :: quoted term.Start.format ++ [',', ']']
  else
    '[' :: quoted term.Start.format ++ ',' :: quoted term.End.format ++ [']']

/-- Date.MarshalJSON from date.go: the zero date renders as the JSON token
null, any other date as the quoted formatted string. -/
def Date.MarshalJSON (date : Date) : List Char :=
  if date.IsZero then "null".toList
  else '"' :: date.format ++ ['"']

/-- JSON whitespace, skipped by encoding/json before a token. -/
def jsonSpace (c : Char) : Bool :=
  c == ' ' || c == '\t' || c == '\n' || c == '\r'

/-- Body of a JSON string after the opening quote, up to the closing quote.
Modelled from encoding/json for escape-free ASCII strings (a backslash is
rejected rather than decoded; no date string contains one). -/
def jsonStringBody : List Char → Option (List Char)
  | [] => none
  | c :: rest =>
    if c = '"' then some []
    else if c = '\\' then none
    else
      match jsonStringBody rest with
      | none => none
      | some acc => some (c :: acc)

/-- A JSON string token decoded from a byte buffer: leading whitespace,
an opening quote, the body, a closing quote; bytes after the closing quote
are ignored, as json.Decoder.Decode reads a single value. -/
def jsonDecodeString (t : List Char) : Option (List Char) :=
  match t.dropWhile jsonSpace with
  | '"' :: rest => jsonStringBody rest
  | _ => none

/-- Date.UnmarshalJSON from date.go, on the final state of the receiver:
the exact token "null" yields the zero Date; otherwise a JSON string is
decoded and parsed with the ISO8601Date layout.  `none` models a returned
error. -/
def Date.UnmarshalJSON (text : List Char) : Option Date :=
  if text == "null".toList then some ⟨0⟩
  else
    match jsonDecodeString text with
    | none => none
    | some s => parseDate s

end GoDate
namespace GoDate

/-- C3: the spec claims the database text encoding of Empty() is the
literal token "empty", with "[,]" reserved for the non-empty fully
unbounded range.  The code's Value() tests only IsZero, which is true for
Empty(), so Empty().Value() is "[,]" — identical to Forever().Value() and
never the token "empty". -/
theorem c3_value_of_empty_is_unbounded_literal :
    Range.Value Empty = "[,]".toList ∧
      Range.Value Empty ≠ "empty".toList ∧
      Range.Value Forever = "[,]".toList := by
  decide

/-- Helper for C4: a comma-free byte string has no first-comma split. -/
lemma splitFirstComma_eq_none (l : List Char) (h : (',' : Char) ∉ l) :
    splitFirstComma l = none := by
  induction l with
  | nil => rfl
  | cons c rest ih =>
    simp only [List.mem_cons, not_or] at h
    obtain ⟨h1, h2⟩ := h
    unfold splitFirstComma
    rw [if_neg (fun hh => h1 hh.symm), ih h2]

/-- Helper for C4: a buffer recognized as the token "empty" has no comma,
so splitRange rejects it. -/
lemma splitRange_eq_none_of_empty_token (b : List Char)
    (h : isEmptyRange b = true) : splitRange b = none := by
  have hcomma : (',' : Char) ∉ b := by
    intro hmem
    have h1 : Char.toLower ',' ∈ toLowerL b := List.mem_map_of_mem _ hmem
    unfold isEmptyRange at h
    rw [beq_iff_eq] at h
    rw [show Char.toLower ',' = ',' from by decide, h] at h1
    exact absurd h1 (by decide)
  unfold splitRange
  rw [splitFirstComma_eq_none b hcomma]

/-- C4: whenever Range.Scan decodes a database range text whose end
sub-string is neither empty nor "infinity" and parses as a date D, the
stored in-memory End of the successfully scanned range is exactly
D minus one day (the exclusive wire bound made inclusive). -/
theorem c4_scan_stores_inclusive_end (term r : Range)
    (b startStr endStr : List Char) (D : Date)
    (hsplit : splitRange b = some (startStr, endStr))
    (hinf : endStr ≠ "infinity".toList) (hne : endStr ≠ [])
    (hparse : parseDate endStr = some D)
    (hscan : term.Scan (.bytes b) = some r) :
    r.End = D.AddDays (-1) := by
  have hE : isEmptyRange b = false := by
    cases hEE : isEmptyRange b
    · rfl
    · exfalso
      rw [splitRange_eq_none_of_empty_token b hEE] at hsplit
      exact Option.noConfusion hsplit
  unfold Range.Scan at hscan
  dsimp only at hscan
  rw [hE] at hscan
  simp only [Bool.false_eq_true, if_false, hsplit] at hscan
  have hc : (endStr == "infinity".toList || endStr == []) = false := by
    rw [beq_eq_false_iff_ne.mpr hinf, beq_eq_false_iff_ne.mpr hne]
    rfl
  rcases hstart :
      (if startStr == "infinity".toList || startStr == [] then some term
       else
         match parseDate startStr with
         | none => none
         | some startDate => some { term with Start := startDate }) with
    _ | t1
  · rw [hstart] at hscan
    exact Option.noConfusion hscan
  · rw [hstart] at hscan
    simp only [beq_iff_eq, beq_eq_false_iff_ne] at hc
    simp only [hc] at hscan
    simp [hparse] at hscan
    first
      | exact congrArg Range.End hscan.symm
      | exact congrArg Range.End hscan

/-- Witness for C4: decoding "[2015-03-01,2015-03-05)" into Forever()
stores End = 2015-03-04 (day number 735660), one day before the parsed
end token 2015-03-05 (day number 735661). -/
theorem c4_scan_stores_inclusive_end_witness :
    splitRange ("[2015-03-01,2015-03-05)".toList) =
        some ("2015-03-01".toList, "2015-03-05".toList) ∧
      "2015-03-05".toList ≠ "infinity".toList ∧
      "2015-03-05".toList ≠ ([] : List Char) ∧
      parseDate ("2015-03-05".toList) = some ⟨735661⟩ ∧
      Forever.Scan (.bytes ("[2015-03-01,2015-03-05)".toList)) =
        some ⟨⟨735657⟩, ⟨735660⟩, false⟩ ∧
      (Range.mk ⟨735657⟩ ⟨735660⟩ false).End = Date.AddDays ⟨735661⟩ (-1) :=
  ⟨by decide, by decide, by decide, by decide, by decide,
    c4_scan_stores_inclusive_end Forever ⟨⟨735657⟩, ⟨735660⟩, false⟩
      ("[2015-03-01,2015-03-05)".toList) ("2015-03-01".toList)
      ("2015-03-05".toList) ⟨735661⟩
      (by decide) (by decide) (by decide) (by decide) (by decide)⟩

/-- C8: the zero Date marshals to the JSON token null (not an empty
string), unmarshaling null yields the zero Date, and the two compose to a
round trip on the zero Date. -/
theorem c8_zero_date_json_null_roundtrip :
    Date.MarshalJSON ⟨0⟩ = "null".toList ∧
      Date.UnmarshalJSON ("null".toList) = some ⟨0⟩ ∧
      Date.UnmarshalJSON (Date.MarshalJSON ⟨0⟩) = some ⟨0⟩ := by
  decide

end GoDate
